import Mathlib

/-!
Shallow embedding of the core validation and pricing pipeline of an
ERC-4337 bundler, together with theorems settling the spec claims.

Part 1 embeds the gas-price manager (`GasPriceManager`): chain tables,
fee bumping, next-base-fee projection, the two bounded fee queues and
`getGasPrice`.  Part 2 embeds the validator (`UnsafeValidator`): the
validation-data codec, the v0.6 / v0.7 post-simulation check stages,
`validatePreVerificationGas` and the prefund stage of
`validateUserOperation`.

Modelling conventions:
- JavaScript `bigint` values (wei amounts, gas quantities) are `Nat`
  where the source never produces negatives, and `Int` with `Int.tdiv`
  (truncation towards zero, the `bigint` division) where signed
  arithmetic occurs.
- `undefined` / `null` results of RPC fetches are `Option`.
- Addresses and packed words are `Nat` values of their byte strings;
  the zero address is `0`.
- RPC fetch results consumed during one call are gathered in a record
  passed explicitly, so every function is pure in the fetched data.
-/

/-- Fee suggestion pair, both components in wei (`GasPriceParameters`). -/
structure GasPriceParameters where
  maxFeePerGas : Nat
  maxPriorityFeePerGas : Nat
deriving Repr, DecidableEq

/-- One entry of a fee queue.  The source stores
`{ timestamp, maxFeePerGas }` resp. `{ timestamp, maxPriorityFeePerGas }`;
the price field is named uniformly here. -/
structure FeeQueueEntry where
  timestamp : Nat
  price : Nat
deriving Repr, DecidableEq

/-- The two rolling queues held by `GasPriceManager`
(`queueMaxFeePerGas` and `queueMaxPriorityFeePerGas`). -/
structure GasPriceQueues where
  queueMaxFeePerGas : List FeeQueueEntry
  queueMaxPriorityFeePerGas : List FeeQueueEntry
deriving Repr, DecidableEq

/-- Construction parameters of `GasPriceManager`: the chain id snapshot,
the `noEip1559Support` flag and `maxQueueSize`
(= `gasPriceTimeValidityInSeconds`, default 10). -/
structure GasPriceManagerConfig where
  chainId : Nat
  noEip1559Support : Bool
  maxQueueSize : Nat
deriving Repr, DecidableEq

/-- Latest-block data read by `getNextBaseFee` via `publicClient.getBlock`. -/
structure LatestBlock where
  baseFeePerGas : Option Nat
  gasUsed : Nat
  gasLimit : Nat
deriving Repr, DecidableEq

/-- Chain ids used by the gas-price manager (`viem/chains` constants and
the local `ChainId` enum). -/
def chainIdPolygon : Nat := 137
def chainIdPolygonMumbai : Nat := 80001
def chainIdSepolia : Nat := 11155111
def chainIdCelo : Nat := 42220
def chainIdCeloAlfajores : Nat := 44787
def chainIdCeloCannoli : Nat := 17323
def chainIdArbitrum : Nat := 42161
def chainIdArbitrumGoerli : Nat := 421613
def chainIdScroll : Nat := 534352
def chainIdScrollSepolia : Nat := 534351
def chainIdMainnet : Nat := 1
def chainIdMantle : Nat := 5000
def chainIdBase : Nat := 8453
def chainIdDfk : Nat := 53935
def chainIdAvalanche : Nat := 43114

/-- `MIN_POLYGON_GAS_PRICE = parseGwei("31")`. -/
def MIN_POLYGON_GAS_PRICE : Nat := 31000000000
/-- `MIN_MUMBAI_GAS_PRICE = parseGwei("1")`. -/
def MIN_MUMBAI_GAS_PRICE : Nat := 1000000000

/-- `maxBigInt` from `@alto/utils`. -/
def maxBigInt (a b : Nat) : Nat := max a b

/-- `minBigInt` from `@alto/utils`. -/
def minBigInt (a b : Nat) : Nat := min a b

/-- `GasPriceManager.getDefaultGasFee`: per-chain minimum applied during
bumping (Polygon 31 gwei, Mumbai 1 gwei, otherwise 0). -/
def getDefaultGasFee (chainId : Nat) : Nat :=
  if chainId = chainIdPolygon then MIN_POLYGON_GAS_PRICE
  else if chainId = chainIdPolygonMumbai then MIN_MUMBAI_GAS_PRICE
  else 0

/-- `GasPriceManager.getBumpAmount`: chain-specific bump percentage. -/
def getBumpAmount (chainId : Nat) : Nat :=
  if chainId = chainIdSepolia then 120
  else if chainId = chainIdCelo then 150
  else if chainId = chainIdArbitrum ∨ chainId = chainIdScroll ∨
      chainId = chainIdScrollSepolia ∨ chainId = chainIdArbitrumGoerli ∨
      chainId = chainIdMainnet ∨ chainId = chainIdMantle ∨
      chainId = 22222 ∨ chainId = chainIdSepolia ∨
      chainId = chainIdBase ∨ chainId = chainIdDfk ∨
      chainId = chainIdCeloAlfajores ∨ chainId = chainIdCeloCannoli ∨
      chainId = chainIdAvalanche then 111
  else 100

/-- `GasPriceManager.bumpTheGasPrice`: raise the priority fee to the
chain minimum, raise the max fee to at least the priority fee, scale
both by the bump percentage, and on Celo chains collapse both to their
maximum. -/
def bumpTheGasPrice (chainId : Nat) (gasPriceParameters : GasPriceParameters) :
    GasPriceParameters :=
  let bumpAmount := getBumpAmount chainId
  let maxPriorityFeePerGas :=
    maxBigInt gasPriceParameters.maxPriorityFeePerGas (getDefaultGasFee chainId)
  let maxFeePerGas := maxBigInt gasPriceParameters.maxFeePerGas maxPriorityFeePerGas
  let result : GasPriceParameters :=
    { maxFeePerGas := maxFeePerGas * bumpAmount / 100
      maxPriorityFeePerGas := maxPriorityFeePerGas * bumpAmount / 100 }
  if chainId = chainIdCelo ∨ chainId = chainIdCeloAlfajores ∨
      chainId = chainIdCeloCannoli then
    let maxFee := maxBigInt result.maxFeePerGas result.maxPriorityFeePerGas
    { maxFeePerGas := maxFee, maxPriorityFeePerGas := maxFee }
  else result

/-- `GasPriceManager.getFallBackMaxPriorityFeePerGas`: 20th-percentile
average over the last 10 blocks, capped by `gasPrice`.  `feeHistoryReward`
carries the `reward[i][0]` entries of `eth_feeHistory` (`none` when the
node returned no reward field). -/
def getFallBackMaxPriorityFeePerGas (feeHistoryReward : Option (List Nat))
    (gasPrice : Nat) : Nat :=
  match feeHistoryReward with
  | none => gasPrice
  | some reward =>
    let feeAverage := reward.foldl (fun acc cur => cur + acc) 0 / 10
    minBigInt feeAverage gasPrice

/-- `GasPriceManager.getNextBaseFee`: EIP-1559 next-base-fee projection
from the latest block.  `bigint` division truncates towards zero
(`Int.tdiv`); in the under-target branch the delta is negative, exactly
as in the source. -/
def getNextBaseFee (block : LatestBlock) (fallbackGasPrice : Nat) : Int :=
  let currentBaseFeePerGas : Int := block.baseFeePerGas.getD fallbackGasPrice
  let currentGasUsed : Int := block.gasUsed
  let gasTarget : Int := block.gasLimit / 2
  if currentGasUsed = gasTarget then
    currentBaseFeePerGas
  else if currentGasUsed > gasTarget then
    let gasUsedDelta := currentGasUsed - gasTarget
    let baseFeePerGasDelta :=
      max (Int.tdiv (Int.tdiv (currentBaseFeePerGas * gasUsedDelta) gasTarget) 8) 1
    currentBaseFeePerGas + baseFeePerGasDelta
  else
    let gasUsedDelta := currentGasUsed - gasTarget
    let baseFeePerGasDelta :=
      Int.tdiv (Int.tdiv (currentBaseFeePerGas * gasUsedDelta) gasTarget) 8
    currentBaseFeePerGas - baseFeePerGasDelta

/-- RPC results consumed by one `getGasPrice` call, fetched lazily by
the source and supplied here up front.  `Option` marks values the node
may leave `undefined` (or whose fetch failed and was caught). -/
structure GasPriceFetchResults where
  /-- `getPolygonGasPriceParameters()`: the gas station `fast` tier,
  `none` when the fetch or the schema parse failed. -/
  polygonEstimate : Option GasPriceParameters
  /-- legacy `estimateFeesPerGas({type: legacy}).gasPrice`. -/
  legacyGasPrice : Option Nat
  /-- `publicClient.getGasPrice()`, the legacy-path fallback. -/
  legacyFallbackGasPrice : Nat
  /-- `estimateFeesPerGas().maxFeePerGas`. -/
  estimatedMaxFeePerGas : Option Nat
  /-- `estimateFeesPerGas().maxPriorityFeePerGas`. -/
  estimatedMaxPriorityFeePerGas : Option Nat
  /-- `eth_feeHistory` 20th-percentile rewards (see
  `getFallBackMaxPriorityFeePerGas`). -/
  feeHistoryReward : Option (List Nat)
  /-- latest block, for `getNextBaseFee`. -/
  latestBlock : LatestBlock
  /-- `publicClient.getGasPrice()`, the `getNextBaseFee` fallback used
  when the latest block carries no `baseFeePerGas`. -/
  blockFallbackGasPrice : Nat
  /-- `Date.now()` at the recording step, in milliseconds. -/
  nowMs : Nat
deriving Repr, DecidableEq

/-- `GasPriceManager.getNoEip1559SupportGasPrice`: legacy gas price used
for both components, falling back to `eth_gasPrice`. -/
def getNoEip1559SupportGasPrice (fetch : GasPriceFetchResults) :
    GasPriceParameters :=
  let gasPrice :=
    match fetch.legacyGasPrice with
    | some g => g
    | none => fetch.legacyFallbackGasPrice
  { maxFeePerGas := gasPrice, maxPriorityFeePerGas := gasPrice }

/-- `GasPriceManager.estimateGasPrice`: the EIP-1559 default estimation
with its fallbacks for each missing component and the `/ 200` floor for
a zero priority fee. -/
def estimateGasPrice (fetch : GasPriceFetchResults) : GasPriceParameters :=
  let maxFeePerGas := fetch.estimatedMaxFeePerGas
  let maxPriorityFeePerGas :=
    match fetch.estimatedMaxPriorityFeePerGas with
    | some p => p
    | none =>
      getFallBackMaxPriorityFeePerGas fetch.feeHistoryReward
        (maxFeePerGas.getD 0)
  let maxFeePerGas :=
    match maxFeePerGas with
    | some m => m
    | none =>
      (getNextBaseFee fetch.latestBlock fetch.blockFallbackGasPrice).toNat +
        maxPriorityFeePerGas
  let maxPriorityFeePerGas :=
    if maxPriorityFeePerGas = 0 then maxFeePerGas / 200
    else maxPriorityFeePerGas
  { maxFeePerGas := maxFeePerGas, maxPriorityFeePerGas := maxPriorityFeePerGas }

/-- Insertion into one fee queue.  The source has two verbatim copies of
this function (`saveMaxFeePerGas` and `saveMaxPriorityFeePerGas`) that
differ only in the price field's name; both are defined below as this
single function.  `timestamp - last.timestamp >= 1000` on JS numbers is
the truncated-subtraction test on `Nat` (both reject a new timestamp
less than 1000 ms past the tail's). -/
def saveFeeQueue (maxQueueSize : Nat) (queue : List FeeQueueEntry)
    (gasPrice : Nat) (timestamp : Nat) : List FeeQueueEntry :=
  match queue.getLast? with
  | none =>
    (if queue.length ≥ maxQueueSize then queue.drop 1 else queue) ++
      [{ timestamp := timestamp, price := gasPrice }]
  | some last =>
    if timestamp - last.timestamp ≥ 1000 then
      (if queue.length ≥ maxQueueSize then queue.drop 1 else queue) ++
        [{ timestamp := timestamp, price := gasPrice }]
    else if gasPrice < last.price then
      queue.set (queue.length - 1) { timestamp := timestamp, price := gasPrice }
    else queue

/-- `GasPriceManager.saveMaxFeePerGas`. -/
def saveMaxFeePerGas : Nat → List FeeQueueEntry → Nat → Nat → List FeeQueueEntry :=
  saveFeeQueue

/-- `GasPriceManager.saveMaxPriorityFeePerGas`. -/
def saveMaxPriorityFeePerGas :
    Nat → List FeeQueueEntry → Nat → Nat → List FeeQueueEntry :=
  saveFeeQueue

/-- `GasPriceManager.saveGasPrice`: record both components. -/
def saveGasPrice (maxQueueSize : Nat) (queues : GasPriceQueues)
    (gasPrice : GasPriceParameters) (timestamp : Nat) : GasPriceQueues :=
  { queueMaxFeePerGas :=
      saveMaxFeePerGas maxQueueSize queues.queueMaxFeePerGas
        gasPrice.maxFeePerGas timestamp
    queueMaxPriorityFeePerGas :=
      saveMaxPriorityFeePerGas maxQueueSize queues.queueMaxPriorityFeePerGas
        gasPrice.maxPriorityFeePerGas timestamp }

/-- Chain-specific floors set at the top of `getGasPrice`
(`maxFeeFloor` / `maxPriorityFeeFloor`: 5 gwei each on DFK, else 0). -/
def gasPriceFloors (chainId : Nat) : Nat × Nat :=
  if chainId = chainIdDfk then (5000000000, 5000000000) else (0, 0)

/-- `GasPriceManager.getGasPrice`: chooses the fetch source (Polygon gas
station, legacy, or EIP-1559 estimation), bumps the result, records the
floored pair into both queues, and returns the bumped (not floored)
pair together with the updated queues. -/
def getGasPrice (cfg : GasPriceManagerConfig) (fetch : GasPriceFetchResults)
    (queues : GasPriceQueues) : GasPriceParameters × GasPriceQueues :=
  let floors := gasPriceFloors cfg.chainId
  match
    (if cfg.chainId = chainIdPolygon ∨ cfg.chainId = chainIdPolygonMumbai then
      fetch.polygonEstimate
    else none) with
  | some polygonEstimate =>
    let gasPrice := bumpTheGasPrice cfg.chainId
      { maxFeePerGas := polygonEstimate.maxFeePerGas
        maxPriorityFeePerGas := polygonEstimate.maxPriorityFeePerGas }
    (gasPrice,
      saveGasPrice cfg.maxQueueSize queues
        { maxFeePerGas := maxBigInt gasPrice.maxFeePerGas floors.1
          maxPriorityFeePerGas := maxBigInt gasPrice.maxPriorityFeePerGas floors.2 }
        fetch.nowMs)
  | none =>
    if cfg.noEip1559Support then
      let gasPrice := bumpTheGasPrice cfg.chainId (getNoEip1559SupportGasPrice fetch)
      (gasPrice,
        saveGasPrice cfg.maxQueueSize queues
          { maxFeePerGas := maxBigInt gasPrice.maxFeePerGas floors.1
            maxPriorityFeePerGas := maxBigInt gasPrice.maxPriorityFeePerGas floors.2 }
          fetch.nowMs)
    else
      let estimate := estimateGasPrice fetch
      let gasPrice := bumpTheGasPrice cfg.chainId
        { maxFeePerGas := estimate.maxFeePerGas
          maxPriorityFeePerGas := estimate.maxPriorityFeePerGas }
      (gasPrice,
        saveGasPrice cfg.maxQueueSize queues
          { maxFeePerGas := maxBigInt gasPrice.maxFeePerGas floors.1
            maxPriorityFeePerGas := maxBigInt gasPrice.maxPriorityFeePerGas floors.2 }
          fetch.nowMs)

/-- All recorded prices of a queue are at least `floor`. -/
def allPricesAtLeast (floor : Nat) (queue : List FeeQueueEntry) : Bool :=
  queue.all (fun e => floor ≤ e.price)

/-!
Part 2: the validator (`UnsafeValidator`).
-/

/-- Error codes of the `ValidationErrors` enum used by the validator. -/
inductive ValidationErrors where
  | SimulateValidation
  | InvalidSignature
  | ExpiresShortly
deriving Repr, DecidableEq

/-- An `RpcError` thrown by the validator: message and error code. -/
structure RpcError where
  message : String
  code : ValidationErrors
deriving Repr, DecidableEq

/-- Whether a check outcome is an `ExpiresShortly` rejection. -/
def isExpiresShortlyError (r : Except RpcError Unit) : Bool :=
  match r with
  | .error e => e.code = ValidationErrors.ExpiresShortly
  | .ok _ => false

/-- The user-operation fields read by the embedded validator code.
Version detection is on shape (`isVersion06` / `isVersion07`).
v0.6 carries `paymasterAndData` as a hex string (at least `"0x"`);
v0.7 carries the split `paymaster` field, `"0x"` when absent per the
spec's encoding.  The remaining fields are not read by the embedded
fragments and are omitted. -/
inductive UserOperation where
  | v06 (paymasterAndData : String) (preVerificationGas : Nat)
  | v07 (paymaster : String) (preVerificationGas : Nat)
deriving Repr, DecidableEq

/-- `isVersion06` from `@alto/utils`: shape dispatch. -/
def isVersion06 : UserOperation → Bool
  | .v06 .. => true
  | .v07 .. => false

/-- `isVersion07` from `@alto/utils`: shape dispatch. -/
def isVersion07 : UserOperation → Bool
  | .v06 .. => false
  | .v07 .. => true

/-- `userOperation.preVerificationGas`. -/
def UserOperation.preVerificationGas : UserOperation → Nat
  | .v06 _ g => g
  | .v07 _ g => g

/-- `userOperation.paymasterAndData` as accessed on a generic object:
`undefined` (here `none`) on a v0.7 operation. -/
def UserOperation.paymasterAndData : UserOperation → Option String
  | .v06 s _ => some s
  | .v07 _ _ => none

/-- `userOperation.paymaster` as accessed on a generic object:
`undefined` (here `none`) on a v0.6 operation. -/
def UserOperation.paymaster : UserOperation → Option String
  | .v06 _ _ => none
  | .v07 s _ => some s

/-- JavaScript truthiness of a possibly-undefined string: `undefined`
and the empty string are falsy, every other string (including `"0x"`)
is truthy. -/
def jsTruthy : Option String → Bool
  | none => false
  | some s => s ≠ ""

/-!
Validation-data codec (`parseValidationData`, `mergeValidationData`).
The source renders the `uint256` word as 32 big-endian bytes
(`pad(toHex(validationData), \x7b size: 32 \x7d)`) and slices fields out of
the hex string; the byte view is modelled literally.
-/

/-- Big-endian byte rendering: the low `n` bytes of `d`, most
significant first (the byte view of `pad(toHex d, 32)` at `n = 32`). -/
def toBytesBE : Nat → Nat → List Nat
  | 0, _ => []
  | n + 1, d => toBytesBE n (d / 256) ++ [d % 256]

/-- Big-endian byte parsing (`Number.parseInt(hexSlice, 16)` /
`slice` producing an address). -/
def fromBytesBE (bytes : List Nat) : Nat :=
  bytes.foldl (fun acc b => acc * 256 + b) 0

/-- The unpacked `(aggregator, validAfter, validUntil)` triple.  The
source's `aggregator` is a 20-byte hex string; its numeric value is
used here (the zero address is `0`). -/
structure ParsedValidationData where
  aggregator : Nat
  validAfter : Nat
  validUntil : Nat
deriving Repr, DecidableEq

/-- `UnsafeValidator.parseValidationData`: slice the 32-byte big-endian
word into aggregator (bytes 12..32), `validUntil` (bytes 6..12,
substituting `2^48 - 1` for zero) and `validAfter` (bytes 0..6). -/
def parseValidationData (validationData : Nat) : ParsedValidationData :=
  let maxUint48 := 2 ^ 48 - 1
  let data := toBytesBE 32 validationData
  let aggregator := fromBytesBE (data.drop (32 - 20))
  let validUntil := fromBytesBE ((data.drop (32 - 26)).take 6)
  let validUntil := if validUntil = 0 then maxUint48 else validUntil
  let validAfter := fromBytesBE (data.take 6)
  { aggregator := aggregator, validAfter := validAfter, validUntil := validUntil }

/-- The merged account+paymaster validation data. -/
structure MergedValidationData where
  paymasterSigFailed : Bool
  accountSigFailed : Bool
  validAfter : Nat
  validUntil : Nat
deriving Repr, DecidableEq

/-- `UnsafeValidator.mergeValidationData`: a non-zero aggregator marks
the corresponding signature as failed; the merged window is the
intersection of the two windows. -/
def mergeValidationData (accountValidationData paymasterValidationData :
    ParsedValidationData) : MergedValidationData :=
  { paymasterSigFailed := paymasterValidationData.aggregator ≠ 0
    accountSigFailed := accountValidationData.aggregator ≠ 0
    validAfter :=
      max accountValidationData.validAfter paymasterValidationData.validAfter
    validUntil :=
      min accountValidationData.validUntil paymasterValidationData.validUntil }

/-- `UnsafeValidator.mergeValidationDataValues`. -/
def mergeValidationDataValues (accountValidationData paymasterValidationData :
    Nat) : MergedValidationData :=
  mergeValidationData (parseValidationData accountValidationData)
    (parseValidationData paymasterValidationData)

/-!
Post-simulation check stages.  Each embedded stage takes the decoded
`returnInfo` fields and the wall clock (`Date.now()` in ms) and either
throws an `RpcError` (`Except.error`) or falls through (`Except.ok`).
-/

/-- The v0.6 check stage of `getValidationResultV06`: signature check,
then the two expiration checks.  The source computes
`now = Date.now() / 1000` on floating-point numbers; the division is
modelled exactly over `ℚ` (the float rounds to this value whenever
`nowMs / 1000` is representable, as at every input used below). -/
def getValidationResultV06Checks (disableExpirationCheck : Bool)
    (nowMs : Nat) (sigFailed : Bool) (validAfter validUntil : Int) :
    Except RpcError Unit :=
  if sigFailed then
    .error { message := "Invalid UserOp signature or  paymaster signature"
             code := ValidationErrors.InvalidSignature }
  else
    let now : ℚ := (nowMs : ℚ) / 1000
    if (validAfter : ℚ) > now - 5 ∧ ¬disableExpirationCheck then
      .error { message := "User operation is not valid yet"
               code := ValidationErrors.ExpiresShortly }
    else if (validUntil : ℚ) < now + 30 ∧ ¬disableExpirationCheck then
      .error { message := "expires too soon"
               code := ValidationErrors.ExpiresShortly }
    else .ok ()

/-- The v0.7 check stage of `getValidationResultV07`: account and
paymaster signature checks, then the expiration checks against
`now = Math.floor(Date.now() / 1000)`.  The source never consults
`disableExpirationCheck` on this path; the parameter is carried to
state that fact. -/
def getValidationResultV07Checks (disableExpirationCheck : Bool)
    (nowMs : Nat) (accountSigFailed paymasterSigFailed : Bool)
    (validAfter : Int) (validUntil : Option Int) : Except RpcError Unit :=
  if accountSigFailed then
    .error { message := "Invalid UserOp signature"
             code := ValidationErrors.InvalidSignature }
  else if paymasterSigFailed then
    .error { message := "Invalid UserOp paymasterData"
             code := ValidationErrors.InvalidSignature }
  else
    let now : Int := nowMs / 1000
    if validAfter > now - 5 then
      .error { message := "User operation is not valid yet, validAfter=" ++
                 toString validAfter ++ ", now=" ++ toString now,
               code := ValidationErrors.ExpiresShortly }
    else
      match validUntil with
      | none =>
        .error { message := "UserOperation expires too soon, validUntil=null, now=" ++
                   toString now,
                 code := ValidationErrors.ExpiresShortly }
      | some vu =>
        if vu < now + 30 then
          .error { message := "UserOperation expires too soon, validUntil=" ++
                     toString vu ++ ", now=" ++ toString now,
                   code := ValidationErrors.ExpiresShortly }
        else .ok ()

/-- `UnsafeValidator.validatePreVerificationGas`: unless the API level
is `"v1"`, compare the computed minimum (`calcPreVerificationGas`, an
external chain-defined function whose result is the
`preVerificationGas` argument here) against the operation's declared
value. -/
def validatePreVerificationGas (apiVersion : String)
    (userOperation : UserOperation) (preVerificationGas : Nat) :
    Except RpcError Unit :=
  if apiVersion ≠ "v1" then
    if preVerificationGas > userOperation.preVerificationGas then
      .error { message := "preVerificationGas is not enough, required: " ++
                 toString preVerificationGas ++ ", got: " ++
                 toString userOperation.preVerificationGas,
               code := ValidationErrors.SimulateValidation }
    else .ok ()
  else .ok ()

/-- The prefund multiplier `mul` computed inside
`validateUserOperation`: starts at 1; a v0.6 operation with truthy
`paymasterAndData` sets 3; a v0.7 operation whose `paymaster` equals
`"0x"` sets 3. -/
def prefundMultiplier (userOperation : UserOperation) : Nat :=
  let mul : Nat := 1
  let mul :=
    if isVersion06 userOperation ∧ jsTruthy userOperation.paymasterAndData then 3
    else mul
  let mul :=
    if isVersion07 userOperation ∧ userOperation.paymaster = some "0x" then 3
    else mul
  mul

/-- The prefund stage of `UnsafeValidator.validateUserOperation`, for
operations whose simulation succeeded: skipped on API level `"v1"`;
otherwise `requiredPreFund = callGasLimit + verificationGasLimit * mul
+ preVerificationGas` must not exceed the simulation's prefund.  The
gas limits are the result of `calcVerificationGasAndCallGasLimit`, an
external chain-defined function, and enter as arguments. -/
def validateUserOperationPrefund (apiVersion : String)
    (userOperation : UserOperation) (prefund : Nat)
    (verificationGasLimit callGasLimit : Nat) : Except RpcError Unit :=
  if apiVersion ≠ "v1" then
    let mul := prefundMultiplier userOperation
    let requiredPreFund :=
      callGasLimit + verificationGasLimit * mul +
        userOperation.preVerificationGas
    if requiredPreFund > prefund then
      .error { message := "prefund is not enough, required: " ++
                 toString requiredPreFund ++ ", got: " ++ toString prefund,
               code := ValidationErrors.SimulateValidation }
    else .ok ()
  else .ok ()

/-!
Part 3: theorems settling the claims.
-/

/-- Claim C5: the projected next base fee is claimed to equal the
latest base fee minus `base * (target - gasUsed) / target / 8` — a value
not above `base` — when `gasUsed < target`.  Evaluating the code at
`base = 800`, `gasUsed = 400`, `gasLimit = 1600` (so `target = 800`)
yields 850: the under-target branch computes the delta on the negative
`gasUsed - target` and then subtracts the negative delta, so the
result exceeds the base fee instead of undershooting it (the claimed
value is `800 - 800 * 400 / 800 / 8 = 750`). -/
theorem c5_getNextBaseFee_underfull_exceeds_base :
    getNextBaseFee { baseFeePerGas := some 800, gasUsed := 400, gasLimit := 1600 } 0 =
      850 ∧ (800 : Int) < 850 := by
  constructor
  · rfl
  · decide

/-- Claim C1: the prefund multiplier is claimed to be 3 exactly when the
operation declares a paymaster.  Evaluating the code: a v0.7 operation
with a declared paymaster gets multiplier 1, a v0.7 operation without a
paymaster (`paymaster = "0x"`) gets 3, and a v0.6 operation with empty
`paymasterAndData` (`"0x"`, which is truthy) also gets 3 — the v0.7
condition is inverted and the v0.6 condition is a truthiness slip.
Consequently a v0.7 operation with a paymaster passes the prefund check
whenever `callGasLimit + 1 * verificationGasLimit + preVerificationGas`
fits the prefund, although the claimed requirement with multiplier 3
does not. -/
theorem c1_prefund_multiplier_inverted :
    prefundMultiplier
        (.v07 "0x1111111111111111111111111111111111111111" 2) = 1 ∧
    prefundMultiplier (.v07 "0x" 2) = 3 ∧
    prefundMultiplier (.v06 "0x" 2) = 3 ∧
    validateUserOperationPrefund "v2"
        (.v07 "0x1111111111111111111111111111111111111111" 2) 17 10 5 =
      .ok () ∧
    5 + 10 * 3 + 2 > 17 := by
  refine ⟨rfl, rfl, rfl, ?_, by decide⟩
  rfl

/-- Claim C2: both expiration paths are claimed to measure time as
`⌊Date.now() / 1000⌋`.  The v0.6 path divides on floats instead: at
`Date.now() = 1000500` ms (`now = 1000.5`, exactly representable) an
operation with `validAfter = 0`, `validUntil = 1030` is rejected with
`ExpiresShortly` by the code, while the claimed integer-floor condition
(`now = 1000`, so `validAfter > 995` or `validUntil < 1030`) does not
hold. -/
theorem c2_v06_expiration_uses_float_clock :
    getValidationResultV06Checks false 1000500 false 0 1030 =
      .error { message := "expires too soon",
               code := ValidationErrors.ExpiresShortly } ∧
    (1000500 : Nat) / 1000 = 1000 ∧
    ¬((0 : Int) > (1000 : Int) - 5) ∧ ¬((1030 : Int) < (1000 : Int) + 30) := by
  refine ⟨?_, by norm_num, by decide, by decide⟩
  simp only [getValidationResultV06Checks]
  norm_num

/-- Claim C3 (counterexample): with `disableExpirationCheck = true` the
v0.7 check stage still rejects a soon-expiring operation with
`ExpiresShortly` — the flag is never consulted on the v0.7 path. -/
theorem c3_v07_rejects_despite_disable_flag :
    isExpiresShortlyError
      (getValidationResultV07Checks true 1000000 false false 0 (some 5)) =
      true := by
  rfl

/-- Claim C3 (amended): with `disableExpirationCheck = true` the v0.6
path never rejects with `ExpiresShortly`; the v0.7 path is independent
of the flag (and can still reject, as the counterexample shows). -/
theorem c3_disable_flag_v06_only (nowMs : Nat) (sigFailed : Bool)
    (validAfter validUntil : Int) (d1 d2 : Bool)
    (accountSigFailed paymasterSigFailed : Bool) (validAfter7 : Int)
    (validUntil7 : Option Int) :
    isExpiresShortlyError
        (getValidationResultV06Checks true nowMs sigFailed validAfter validUntil) =
      false ∧
    getValidationResultV07Checks d1 nowMs accountSigFailed paymasterSigFailed
        validAfter7 validUntil7 =
      getValidationResultV07Checks d2 nowMs accountSigFailed paymasterSigFailed
        validAfter7 validUntil7 := by
  constructor
  · cases sigFailed <;> simp [getValidationResultV06Checks, isExpiresShortlyError]
  · rfl

/-- Claim C6: `validatePreVerificationGas` skips the check exactly on
API level `"v1"` and otherwise rejects with a `SimulateValidation`
error quoting the computed and declared `preVerificationGas` whenever
the computed minimum exceeds the declared value. -/
theorem c6_validatePreVerificationGas_gate (apiVersion : String)
    (userOperation : UserOperation) (preVerificationGas : Nat) :
    validatePreVerificationGas apiVersion userOperation preVerificationGas =
      if apiVersion = "v1" ∨ preVerificationGas ≤ userOperation.preVerificationGas
      then .ok ()
      else .error { message := "preVerificationGas is not enough, required: " ++
                      toString preVerificationGas ++ ", got: " ++
                      toString userOperation.preVerificationGas,
                    code := ValidationErrors.SimulateValidation } := by
  simp only [validatePreVerificationGas]
  split_ifs with h1 h2 <;> simp_all <;> omega

/-- Claim C8: the merged validation data marks the account (resp.
paymaster) signature as failed exactly when the corresponding
aggregator is non-zero, and intersects the two time windows. -/
theorem c8_mergeValidationData_fields
    (accountValidationData paymasterValidationData : ParsedValidationData) :
    ((mergeValidationData accountValidationData
        paymasterValidationData).accountSigFailed = true ↔
      accountValidationData.aggregator ≠ 0) ∧
    ((mergeValidationData accountValidationData
        paymasterValidationData).paymasterSigFailed = true ↔
      paymasterValidationData.aggregator ≠ 0) ∧
    (mergeValidationData accountValidationData
        paymasterValidationData).validAfter =
      max accountValidationData.validAfter paymasterValidationData.validAfter ∧
    (mergeValidationData accountValidationData
        paymasterValidationData).validUntil =
      min accountValidationData.validUntil paymasterValidationData.validUntil := by
  simp [mergeValidationData]

/-- Length of the big-endian rendering. -/
lemma toBytesBE_length (k : Nat) : ∀ d, (toBytesBE k d).length = k := by
  induction k with
  | zero => intro d; rfl
  | succ n ih => intro d; simp [toBytesBE, ih]

/-- Parsing appends one byte of significance at the low end. -/
lemma fromBytesBE_append_singleton (bytes : List Nat) (b : Nat) :
    fromBytesBE (bytes ++ [b]) = fromBytesBE bytes * 256 + b := by
  simp [fromBytesBE]

/-- Rendering then parsing recovers the value modulo `256 ^ k`. -/
lemma fromBytesBE_toBytesBE (k : Nat) : ∀ d, fromBytesBE (toBytesBE k d) = d % 256 ^ k := by
  induction k with
  | zero => intro d; simp [toBytesBE, fromBytesBE, Nat.mod_one]
  | succ n ih =>
    intro d
    rw [toBytesBE, fromBytesBE_append_singleton, ih]
    rw [pow_succ, mul_comm (256 ^ n) 256, Nat.mod_mul]
    ring

/-- The big-endian rendering splits at any byte boundary: the high `j`
bytes render `d / 256 ^ m` and the low `m` bytes render `d`. -/
lemma toBytesBE_split (j : Nat) : ∀ (m d : Nat),
    toBytesBE (j + m) d = toBytesBE j (d / 256 ^ m) ++ toBytesBE m d := by
  intro m
  induction m with
  | zero => intro d; simp [toBytesBE]
  | succ n ih =>
    intro d
    show toBytesBE (j + n + 1) d = _
    rw [toBytesBE, ih (d / 256), Nat.div_div_eq_div_mul, toBytesBE,
      List.append_assoc, pow_succ']

/-- Dropping the high `j` bytes leaves the low `m` bytes. -/
lemma toBytesBE_drop (j m d : Nat) :
    (toBytesBE (j + m) d).drop j = toBytesBE m d := by
  rw [toBytesBE_split, List.drop_left' (toBytesBE_length j _)]

/-- Taking the high `j` bytes renders the shifted value. -/
lemma toBytesBE_take (j m d : Nat) :
    (toBytesBE (j + m) d).take j = toBytesBE j (d / 256 ^ m) := by
  rw [toBytesBE_split, List.take_left' (toBytesBE_length j _)]

/-- Claim C7: `parseValidationData` maps a `uint256` word, viewed as 32
big-endian bytes, to aggregator = bytes 12..32 (the low 160 bits),
`validUntil` = bytes 6..12 (bits 160..208) with `2 ^ 48 - 1`
substituted for zero, and `validAfter` = bytes 0..6 (bits 208..256). -/
theorem c7_parseValidationData_bit_fields (validationData : Nat)
    (h : validationData < 2 ^ 256) :
    parseValidationData validationData =
      { aggregator := validationData % 2 ^ 160,
        validAfter := validationData / 2 ^ 208,
        validUntil :=
          if validationData / 2 ^ 160 % 2 ^ 48 = 0 then 2 ^ 48 - 1
          else validationData / 2 ^ 160 % 2 ^ 48 } := by
  have h20 : (256 : Nat) ^ 20 = 2 ^ 160 := by norm_num
  have h26 : (256 : Nat) ^ 26 = 2 ^ 208 := by norm_num
  have h6 : (256 : Nat) ^ 6 = 2 ^ 48 := by norm_num
  have hdrop12 : (toBytesBE 32 validationData).drop 12 =
      toBytesBE 20 validationData := toBytesBE_drop 12 20 validationData
  have hdrop6 : (toBytesBE 32 validationData).drop 6 =
      toBytesBE 26 validationData := toBytesBE_drop 6 26 validationData
  have htake6 : (toBytesBE 32 validationData).take 6 =
      toBytesBE 6 (validationData / 256 ^ 26) := toBytesBE_take 6 26 validationData
  have htakeMid : (toBytesBE 26 validationData).take 6 =
      toBytesBE 6 (validationData / 256 ^ 20) := toBytesBE_take 6 20 validationData
  have hva : validationData / 2 ^ 208 % 2 ^ 48 = validationData / 2 ^ 208 := by
    apply Nat.mod_eq_of_lt
    apply Nat.div_lt_of_lt_mul
    calc validationData < 2 ^ 256 := h
    _ = 2 ^ 208 * 2 ^ 48 := by norm_num
  simp only [parseValidationData, hdrop12, hdrop6, htake6, htakeMid,
    fromBytesBE_toBytesBE, h20, h26, h6, hva]

/-- Witness for C7 at the all-zero word: unpacking yields the zero
aggregator, `validAfter = 0` and `validUntil = 2 ^ 48 - 1`. -/
theorem c7_parseValidationData_bit_fields_witness :
    (0 : Nat) < 2 ^ 256 ∧
    parseValidationData 0 =
      { aggregator := 0, validAfter := 0, validUntil := 2 ^ 48 - 1 } := by
  refine ⟨by norm_num, ?_⟩
  rw [c7_parseValidationData_bit_fields 0 (by norm_num)]
  norm_num

/-- Overwriting the last element is dropping it and appending the new one. -/
lemma set_last_eq_dropLast_append {α : Type} (q : List α) (e : α) (h : q ≠ []) :
    q.set (q.length - 1) e = q.dropLast ++ [e] := by
  induction q with
  | nil => simp at h
  | cons a rest ih =>
    cases rest with
    | nil => simp
    | cons b t =>
      have hne : (b :: t) ≠ [] := by simp
      have hlen : (a :: b :: t).length - 1 = ((b :: t).length - 1) + 1 := by
        simp
      rw [hlen, List.set_cons_succ, ih hne]
      simp

/-- One insertion preserves the capacity bound as soon as the capacity
is at least 1. -/
lemma saveFeeQueue_length_le (W : Nat) (q : List FeeQueueEntry)
    (p t : Nat) (hW : 1 ≤ W) (hq : q.length ≤ W) :
    (saveFeeQueue W q p t).length ≤ W := by
  unfold saveFeeQueue
  cases hlast : q.getLast? with
  | none =>
    have hnil : q = [] := List.getLast?_eq_none_iff.mp hlast
    subst hnil
    simpa using hW
  | some last =>
    have hne : q ≠ [] := by
      intro hnil
      subst hnil
      simp at hlast
    have hpos : 0 < q.length := List.length_pos.mpr hne
    dsimp only
    by_cases h1 : t - last.timestamp ≥ 1000
    · rw [if_pos h1]
      by_cases h2 : q.length ≥ W
      · rw [if_pos h2]
        simp only [List.length_append, List.length_drop, List.length_cons,
          List.length_nil]
        omega
      · rw [if_neg h2]
        simp only [List.length_append, List.length_cons, List.length_nil]
        omega
    · rw [if_neg h1]
      by_cases h3 : p < last.price
      · rw [if_pos h3]
        simpa using hq
      · rw [if_neg h3]
        exact hq

/-- Claim C9: with capacity `W ≥ 1`, (a) starting from the empty queue,
any sequence of insertions (through either of the two verbatim-equal
save functions) leaves at most `W` entries, (b) the two save functions
are the same function, and (c) each insertion follows the rule: push —
evicting the front entry at capacity — when the queue is empty or the
new timestamp is at least 1000 ms past the tail's; otherwise overwrite
the tail when the new price is strictly lower; otherwise leave the
queue unchanged. -/
theorem c9_fee_queue_capacity_and_insertion_rule (W : Nat) (hW : 1 ≤ W) :
    (∀ ops : List (Nat × Nat),
      (ops.foldl (fun queue pt => saveMaxFeePerGas W queue pt.1 pt.2)
          []).length ≤ W ∧
      (ops.foldl (fun queue pt => saveMaxPriorityFeePerGas W queue pt.1 pt.2)
          []).length ≤ W) ∧
    saveMaxPriorityFeePerGas = saveMaxFeePerGas ∧
    (∀ (queue : List FeeQueueEntry) (gasPrice timestamp : Nat),
      (queue = [] →
        saveMaxFeePerGas W queue gasPrice timestamp =
          (if W ≤ queue.length then queue.drop 1 else queue) ++
            [{ timestamp := timestamp, price := gasPrice }]) ∧
      (∀ last, queue.getLast? = some last →
        (last.timestamp + 1000 ≤ timestamp →
          saveMaxFeePerGas W queue gasPrice timestamp =
            (if W ≤ queue.length then queue.drop 1 else queue) ++
              [{ timestamp := timestamp, price := gasPrice }]) ∧
        (timestamp < last.timestamp + 1000 → gasPrice < last.price →
          saveMaxFeePerGas W queue gasPrice timestamp =
            queue.dropLast ++ [{ timestamp := timestamp, price := gasPrice }]) ∧
        (timestamp < last.timestamp + 1000 → last.price ≤ gasPrice →
          saveMaxFeePerGas W queue gasPrice timestamp = queue))) := by
  refine ⟨?_, rfl, ?_⟩
  · intro ops
    have key : ∀ (ops : List (Nat × Nat)) (q : List FeeQueueEntry),
        q.length ≤ W →
        (ops.foldl (fun queue pt => saveFeeQueue W queue pt.1 pt.2)
            q).length ≤ W := by
      intro ops
      induction ops with
      | nil => intro q hq; simpa using hq
      | cons op rest ih =>
        intro q hq
        simp only [List.foldl_cons]
        exact ih _ (saveFeeQueue_length_le W q op.1 op.2 hW hq)
    exact ⟨key ops [] (by simpa using hW), key ops [] (by simpa using hW)⟩
  · intro queue gasPrice timestamp
    refine ⟨?_, ?_⟩
    · intro hnil
      subst hnil
      simp [saveMaxFeePerGas, saveFeeQueue]
    · intro last hlast
      have hne : queue ≠ [] := by
        intro hnil
        subst hnil
        simp at hlast
      refine ⟨?_, ?_, ?_⟩
      · intro hfresh
        simp only [saveMaxFeePerGas, saveFeeQueue, hlast]
        rw [if_pos (show timestamp - last.timestamp ≥ 1000 by omega)]
      · intro hstale hlower
        simp only [saveMaxFeePerGas, saveFeeQueue, hlast]
        rw [if_neg (by omega), if_pos hlower]
        exact set_last_eq_dropLast_append queue _ hne
      · intro hstale hhigher
        simp only [saveMaxFeePerGas, saveFeeQueue, hlast]
        rw [if_neg (by omega), if_neg (by omega)]

/-- Witness for C9, the spec's rolling-minimum scenario step: a second
observation within the same second and with a lower price overwrites
the tail in place. -/
theorem c9_fee_queue_capacity_and_insertion_rule_witness :
    saveMaxFeePerGas 10 [{ timestamp := 0, price := 5 }] 4 500 =
      [{ timestamp := 500, price := 4 }] := by
  have h := (c9_fee_queue_capacity_and_insertion_rule 10 (by norm_num)).2.2
    [{ timestamp := 0, price := 5 }] 4 500
  have h2 := (h.2 { timestamp := 0, price := 5 } rfl).2.1 (by norm_num) (by norm_num)
  simpa using h2

/-- The bumped pair always satisfies `maxPriorityFeePerGas ≤ maxFeePerGas`:
the max fee is raised to at least the adjusted priority fee before both
are scaled by the same percentage, and the Celo collapse makes them equal. -/
lemma bumpTheGasPrice_priority_le (chainId : Nat) (g : GasPriceParameters) :
    (bumpTheGasPrice chainId g).maxPriorityFeePerGas ≤
      (bumpTheGasPrice chainId g).maxFeePerGas := by
  unfold bumpTheGasPrice maxBigInt
  split_ifs
  · simp
  · simp only
    apply Nat.div_le_div_right
    apply Nat.mul_le_mul_right
    exact le_max_right _ _

/-- Claim C10: every pair returned by `getGasPrice` has
`maxPriorityFeePerGas ≤ maxFeePerGas`, on every fetch path. -/
theorem c10_getGasPrice_priority_le_max (cfg : GasPriceManagerConfig)
    (fetch : GasPriceFetchResults) (queues : GasPriceQueues) :
    ((getGasPrice cfg fetch queues).1).maxPriorityFeePerGas ≤
      ((getGasPrice cfg fetch queues).1).maxFeePerGas := by
  unfold getGasPrice
  cases hpoly : (if cfg.chainId = chainIdPolygon ∨ cfg.chainId = chainIdPolygonMumbai
      then fetch.polygonEstimate else none) with
  | some polygonEstimate => exact bumpTheGasPrice_priority_le _ _
  | none =>
    by_cases hlegacy : cfg.noEip1559Support
    · simp only [hlegacy, if_true]
      exact bumpTheGasPrice_priority_le _ _
    · simp only [hlegacy, if_false]
      exact bumpTheGasPrice_priority_le _ _

/-- Claim C4 (counterexample): on the DFK chain (floor 5 gwei per
component) a successful `getGasPrice` call can return a pair far below
the floor — here `(1, 1)` wei from a legacy gas price of 1 wei — because
the floor is applied only to the recorded queue values, not to the
returned pair. -/
theorem c4_dfk_returned_fee_below_floor :
    (getGasPrice { chainId := 53935, noEip1559Support := true, maxQueueSize := 10 }
        { polygonEstimate := none, legacyGasPrice := some 1,
          legacyFallbackGasPrice := 1, estimatedMaxFeePerGas := none,
          estimatedMaxPriorityFeePerGas := none, feeHistoryReward := none,
          latestBlock := { baseFeePerGas := none, gasUsed := 0, gasLimit := 0 },
          blockFallbackGasPrice := 0, nowMs := 0 }
        { queueMaxFeePerGas := [], queueMaxPriorityFeePerGas := [] }).1 =
      { maxFeePerGas := 1, maxPriorityFeePerGas := 1 } ∧
    (1 : Nat) < (gasPriceFloors 53935).1 ∧
    (1 : Nat) < (gasPriceFloors 53935).2 := by
  refine ⟨rfl, ?_, ?_⟩ <;> decide

/-- Every entry of the queue after an insertion either was already
present or carries the inserted price and timestamp. -/
lemma mem_saveFeeQueue (W : Nat) (q : List FeeQueueEntry) (p t : Nat)
    (e : FeeQueueEntry) (he : e ∈ saveFeeQueue W q p t) :
    e ∈ q ∨ e = { timestamp := t, price := p } := by
  unfold saveFeeQueue at he
  cases hlast : q.getLast? with
  | none =>
    rw [hlast] at he
    simp only at he
    split_ifs at he
    · rcases List.mem_append.mp he with h | h
      · exact Or.inl (List.mem_of_mem_drop h)
      · exact Or.inr (by simpa using h)
    · rcases List.mem_append.mp he with h | h
      · exact Or.inl h
      · exact Or.inr (by simpa using h)
  | some last =>
    rw [hlast] at he
    simp only at he
    split_ifs at he
    · rcases List.mem_append.mp he with h | h
      · exact Or.inl (List.mem_of_mem_drop h)
      · exact Or.inr (by simpa using h)
    · rcases List.mem_append.mp he with h | h
      · exact Or.inl h
      · exact Or.inr (by simpa using h)
    · rcases List.mem_or_eq_of_mem_set he with h | h
      · exact Or.inl h
      · exact Or.inr h
    · exact Or.inl he

/-- An insertion of a price above the floor into a queue whose prices
are all above the floor keeps all prices above the floor. -/
lemma allPricesAtLeast_saveFeeQueue (floor W : Nat) (q : List FeeQueueEntry)
    (p t : Nat) (hq : allPricesAtLeast floor q = true) (hp : floor ≤ p) :
    allPricesAtLeast floor (saveFeeQueue W q p t) = true := by
  simp only [allPricesAtLeast, List.all_eq_true, decide_eq_true_eq] at hq ⊢
  intro e he
  rcases mem_saveFeeQueue W q p t e he with h | h
  · exact hq e h
  · rw [h]
    exact hp

/-- Claim C4 (amended): the chain floor governs what `getGasPrice`
records, not what it returns — if all queue entries are at least the
chain floor before a call, they still are afterwards, because the pair
passed to the recording step is raised to the floor componentwise. -/
theorem c4_queue_entries_respect_floor (cfg : GasPriceManagerConfig)
    (fetch : GasPriceFetchResults) (queues : GasPriceQueues)
    (hFee : allPricesAtLeast (gasPriceFloors cfg.chainId).1
      queues.queueMaxFeePerGas = true)
    (hPrio : allPricesAtLeast (gasPriceFloors cfg.chainId).2
      queues.queueMaxPriorityFeePerGas = true) :
    allPricesAtLeast (gasPriceFloors cfg.chainId).1
      (getGasPrice cfg fetch queues).2.queueMaxFeePerGas = true ∧
    allPricesAtLeast (gasPriceFloors cfg.chainId).2
      (getGasPrice cfg fetch queues).2.queueMaxPriorityFeePerGas = true := by
  unfold getGasPrice
  cases hpoly : (if cfg.chainId = chainIdPolygon ∨ cfg.chainId = chainIdPolygonMumbai
      then fetch.polygonEstimate else none) with
  | some polygonEstimate =>
    exact ⟨allPricesAtLeast_saveFeeQueue _ _ _ _ _ hFee (le_max_right _ _),
      allPricesAtLeast_saveFeeQueue _ _ _ _ _ hPrio (le_max_right _ _)⟩
  | none =>
    by_cases hlegacy : cfg.noEip1559Support
    · simp only [hlegacy, if_true]
      exact ⟨allPricesAtLeast_saveFeeQueue _ _ _ _ _ hFee (le_max_right _ _),
        allPricesAtLeast_saveFeeQueue _ _ _ _ _ hPrio (le_max_right _ _)⟩
    · simp only [hlegacy, if_false]
      exact ⟨allPricesAtLeast_saveFeeQueue _ _ _ _ _ hFee (le_max_right _ _),
        allPricesAtLeast_saveFeeQueue _ _ _ _ _ hPrio (le_max_right _ _)⟩

/-- Witness for the amended C4 on the DFK chain with empty queues: the
recorded entries are at least the 5 gwei floor. -/
theorem c4_queue_entries_respect_floor_witness :
    allPricesAtLeast (gasPriceFloors 53935).1
      (getGasPrice { chainId := 53935, noEip1559Support := true, maxQueueSize := 10 }
        { polygonEstimate := none, legacyGasPrice := some 1,
          legacyFallbackGasPrice := 1, estimatedMaxFeePerGas := none,
          estimatedMaxPriorityFeePerGas := none, feeHistoryReward := none,
          latestBlock := { baseFeePerGas := none, gasUsed := 0, gasLimit := 0 },
          blockFallbackGasPrice := 0, nowMs := 0 }
        { queueMaxFeePerGas := [], queueMaxPriorityFeePerGas := [] }).2.queueMaxFeePerGas =
      true ∧
    allPricesAtLeast (gasPriceFloors 53935).2
      (getGasPrice { chainId := 53935, noEip1559Support := true, maxQueueSize := 10 }
        { polygonEstimate := none, legacyGasPrice := some 1,
          legacyFallbackGasPrice := 1, estimatedMaxFeePerGas := none,
          estimatedMaxPriorityFeePerGas := none, feeHistoryReward := none,
          latestBlock := { baseFeePerGas := none, gasUsed := 0, gasLimit := 0 },
          blockFallbackGasPrice := 0, nowMs := 0 }
        { queueMaxFeePerGas := [], queueMaxPriorityFeePerGas := [] }).2.queueMaxPriorityFeePerGas =
      true :=
  c4_queue_entries_respect_floor _ _ _ rfl rfl
